import Mathlib

/-!
# Verification of the donut-3DGS example applications

Shallow embedding of the three example applications of the repository
(`basic_triangle`, `vertex_buffer`, `deferred_shading`).  Each example is a
thin layer over the external donut engine and the nvrhi device abstraction;
the embedding models the control flow and the data that the examples
themselves own: shader/texture load outcomes, buffer layouts, binding
ranges, viewports, the lazily (re)created pipeline, the render-target
resize logic and the process entry points.

External engine and device calls are modelled by their observable outcome
(a handle being null or not), which is exactly what the in-repo code
branches on.
-/

namespace Donut

/-- Byte range within a device buffer, mirroring `nvrhi::BufferRange`
(a byte offset plus a byte size). -/
structure BufferRange where
  byteOffset : Nat
  byteSize : Nat
  deriving DecidableEq

/-- Two byte ranges do not overlap: one ends before the other begins. -/
def rangesDisjoint (a b : BufferRange) : Prop :=
  a.byteOffset + a.byteSize ≤ b.byteOffset ∨ b.byteOffset + b.byteSize ≤ a.byteOffset

/-- Membership of a byte address in a half-open byte range. -/
def inRange (r : BufferRange) (a : Nat) : Prop :=
  r.byteOffset ≤ a ∧ a < r.byteOffset + r.byteSize

/-- Result of one example `main` entry point (the non-WIN32 `main`;
the WIN32 `WinMain` has the same body): the returned process exit code,
whether `AddRenderPassToBack` was reached, whether `RunMessageLoop` was
reached, whether `DeviceManager::Shutdown` was reached, and whether a
graphics pipeline was ever created during the run (pipelines are created
lazily inside `Render`, which only runs from inside the message loop). -/
structure MainResult where
  exitCode : Nat
  addedPass : Bool
  ranLoop : Bool
  shutdown : Bool
  pipelineCreated : Bool
  deriving DecidableEq

namespace BasicTriangle

/-- Environment of one run of the basic_triangle example: whether the two
`ShaderFactory::CreateShader` calls return non-null handles, whether
`CreateWindowDeviceAndSwapChain` succeeds, and how many message-loop
iterations (frames) occur before the window closes. -/
structure Env where
  vsOk : Bool
  psOk : Bool
  deviceOk : Bool
  frames : Nat
  deriving DecidableEq

/-- `BasicTriangle::Init` (basic_triangle.cpp lines 48-66): loads the
vertex and pixel shaders and returns `false` when either handle is null,
otherwise creates the command list and returns `true`. -/
def Init (e : Env) : Bool :=
  e.vsOk && e.psOk

/-- Member state of the `BasicTriangle` class: the four handle members.
`true` stands for a non-null handle. -/
structure State where
  vertexShader : Bool
  pixelShader : Bool
  pipeline : Bool
  commandList : Bool
  deriving DecidableEq

/-- `BasicTriangle::BackBufferResizing` (lines 70-73): sets
`m_Pipeline = nullptr` and touches nothing else. -/
def backBufferResizing (s : State) : State :=
  { s with pipeline := false }

/-- Pipeline-cache effect of `BasicTriangle::Render` (lines 85-123): when
`m_Pipeline` is null a graphics pipeline is created, otherwise the cached
one is reused.  The returned flag records whether
`createGraphicsPipeline` was called this frame. -/
def render (s : State) : State × Bool :=
  if s.pipeline then (s, false) else ({ s with pipeline := true }, true)

/-- The `main` entry point of basic_triangle (lines 131-167): return 1 if
`CreateWindowDeviceAndSwapChain` fails; otherwise run `Init`, and only on
success add the render pass and run the message loop; shut the device
manager down and return 0. -/
def mainResult (e : Env) : MainResult :=
  if e.deviceOk = false then
    { exitCode := 1, addedPass := false, ranLoop := false, shutdown := false,
      pipelineCreated := false }
  else if Init e then
    { exitCode := 0, addedPass := true, ranLoop := true, shutdown := true,
      pipelineCreated := e.frames != 0 }
  else
    { exitCode := 0, addedPass := false, ranLoop := false, shutdown := true,
      pipelineCreated := false }

end BasicTriangle

namespace VertexBuffer

/-- `c_NumViews` of vertex_buffer.cpp (line 83). -/
def c_NumViews : Nat := 4

/-- Environment of one run of the vertex_buffer example: outcomes of the
two shader loads, of `TextureCache::LoadTextureFromFile` (whether the
loaded texture handle is non-null), of
`nvrhi::utils::CreateBindingSetAndLayout`, of device creation, and the
number of rendered frames. -/
structure Env where
  vsOk : Bool
  psOk : Bool
  textureOk : Bool
  bindingOk : Bool
  deviceOk : Bool
  frames : Nat
  deriving DecidableEq

/-- Observable outcome of `VertexBuffer::Init` (vertex_buffer.cpp lines
124-258): the returned boolean, whether the texture-load error path
(`log::error("Couldn't load the texture")`) ran, whether the binding-set
error path ran, and how many texture-load attempts were made. -/
structure InitResult where
  ok : Bool
  loggedTextureError : Bool
  loggedBindingError : Bool
  textureLoadAttempts : Nat
  deriving DecidableEq

/-- `VertexBuffer::Init`: returns false straight away when either shader
handle is null (lines 144-147, before any texture load); otherwise
creates buffers, loads the texture exactly once (line 205) and fails with
a logged error when its handle is null (lines 211-215); otherwise creates
the four binding sets and fails with a logged error when creation fails
(lines 245-254); otherwise returns true. -/
def Init (e : Env) : InitResult :=
  if e.vsOk && e.psOk then
    if e.textureOk then
      if e.bindingOk then
        { ok := true, loggedTextureError := false, loggedBindingError := false,
          textureLoadAttempts := 1 }
      else
        { ok := false, loggedTextureError := false, loggedBindingError := true,
          textureLoadAttempts := 1 }
    else
      { ok := false, loggedTextureError := true, loggedBindingError := false,
        textureLoadAttempts := 1 }
  else
    { ok := false, loggedTextureError := false, loggedBindingError := false,
      textureLoadAttempts := 0 }

/-- Member state of the `VertexBuffer` class (lines 94-108); handle
members are modelled by whether they are non-null, `m_Rotation` by a
rational. -/
structure State where
  vertexShader : Bool
  pixelShader : Bool
  constantBuffer : Bool
  vertexBuffer : Bool
  indexBuffer : Bool
  texture : Bool
  inputLayout : Bool
  bindingLayout : Bool
  bindingSets : Bool
  pipeline : Bool
  commandList : Bool
  rotation : ℚ
  deriving DecidableEq

/-- `VertexBuffer::BackBufferResizing` (lines 266-269): sets
`m_Pipeline = nullptr` and touches nothing else. -/
def backBufferResizing (s : State) : State :=
  { s with pipeline := false }

/-- Pipeline-cache effect of `VertexBuffer::Render` (lines 275-286): the
pipeline is created only when the cached handle is null.  The flag
records whether `createGraphicsPipeline` was called. -/
def render (s : State) : State × Bool :=
  if s.pipeline then (s, false) else ({ s with pipeline := true }, true)

/-- The `main` entry point of vertex_buffer (lines 352-385), same shape
as the basic_triangle one. -/
def mainResult (e : Env) : MainResult :=
  if e.deviceOk = false then
    { exitCode := 1, addedPass := false, ranLoop := false, shutdown := false,
      pipelineCreated := false }
  else if (Init e).ok then
    { exitCode := 0, addedPass := true, ranLoop := true, shutdown := true,
      pipelineCreated := e.frames != 0 }
  else
    { exitCode := 0, addedPass := false, ranLoop := false, shutdown := true,
      pipelineCreated := false }

/-- Viewport as built by the `nvrhi::Viewport(minX, maxX, minY, maxY,
minZ, maxZ)` constructor.  Coordinates are modelled as rationals; the
float arithmetic of `Render` (an integer framebuffer extent times 0.5f)
is exact for any realistic extent. -/
structure Viewport where
  minX : ℚ
  maxX : ℚ
  minY : ℚ
  maxY : ℚ
  minZ : ℚ
  maxZ : ℚ
  deriving DecidableEq

/-- Viewport of view `viewIndex` built in `VertexBuffer::Render` (lines
325-332) for a framebuffer of extent `w` by `h`:
`width = w * 0.5`, `height = h * 0.5`, `left = width * (viewIndex % 2)`,
`top = height * (viewIndex / 2)`, viewport
`(left, left + width, top, top + height, 0, 1)`. -/
def renderViewport (w h : Nat) (viewIndex : Nat) : Viewport :=
  let width : ℚ := (w : ℚ) * (1 / 2)
  let height : ℚ := (h : ℚ) * (1 / 2)
  let left : ℚ := width * ((viewIndex % 2 : Nat) : ℚ)
  let top : ℚ := height * ((viewIndex / 2 : Nat) : ℚ)
  { minX := left, maxX := left + width, minY := top, maxY := top + height,
    minZ := 0, maxZ := 1 }

/-- Membership of a point in the half-open x/y rectangle of a viewport. -/
def vpContains (v : Viewport) (x y : ℚ) : Prop :=
  v.minX ≤ x ∧ x < v.maxX ∧ v.minY ≤ y ∧ y < v.maxY

/-- Byte size of one `VertexBuffer::ConstantBufferEntry` (lines 116-120):
a `float4x4` (16 floats) followed by `float padding[16*3]`, each float
being 4 bytes. -/
def sizeofConstantBufferEntry : Nat := 16 * 4 + 16 * 3 * 4

/-- `nvrhi::c_ConstantBufferOffsetSizeAlignment`, the constant-buffer
offset/size alignment required by the device abstraction (256 bytes, as
pinned by the `static_assert` on line 122). -/
def c_ConstantBufferOffsetSizeAlignment : Nat := 256

/-- Byte size of the single constant buffer created in `Init` (lines
149-154): `sizeof(ConstantBufferEntry) * c_NumViews`. -/
def constantBufferByteSize : Nat := sizeofConstantBufferEntry * c_NumViews

/-- Constant-buffer range bound by binding set `viewIndex` (lines
234-238): offset `sizeof(ConstantBufferEntry) * viewIndex`, size
`sizeof(ConstantBufferEntry)`. -/
def bindingSetRange (viewIndex : Nat) : BufferRange :=
  { byteOffset := sizeofConstantBufferEntry * viewIndex,
    byteSize := sizeofConstantBufferEntry }

end VertexBuffer

/-- Byte sizes of the cube attribute arrays `g_Positions`, `g_TexCoords`,
`g_Normals` and `g_Tangents`.  The arrays themselves live in
`CubeGeometry.h`, which is included by the deferred_shading source but is
not part of the repository snapshot, so the sizes are kept as
parameters; the layout logic below is taken verbatim from
`SimpleScene::Init`. -/
structure CubeGeometrySizes where
  positionsBytes : Nat
  texCoordsBytes : Nat
  normalsBytes : Nat
  tangentsBytes : Nat
  deriving DecidableEq

/-- Vertex-attribute layout of the single packed vertex buffer of the
deferred_shading example: one byte range per attribute, plus the byte
size passed to `CreateGeometryBuffer` for the vertex buffer. -/
structure VertexLayout where
  position : BufferRange
  texCoord1 : BufferRange
  normal : BufferRange
  tangent : BufferRange
  vertexBufferSize : Nat
  deriving DecidableEq

/-- Layout computation of `SimpleScene::Init` (part_000 lines 120-141):
a running `vertexBufferSize` starts at 0; each attribute range gets the
current running value as offset and its array's byte size as size, and
the running value is advanced by that size; the vertex buffer is then
created with the final running value as its byte size. -/
def buildVertexLayout (g : CubeGeometrySizes) : VertexLayout :=
  let sz0 : Nat := 0
  let position : BufferRange := { byteOffset := sz0, byteSize := g.positionsBytes }
  let sz1 : Nat := sz0 + g.positionsBytes
  let texCoord1 : BufferRange := { byteOffset := sz1, byteSize := g.texCoordsBytes }
  let sz2 : Nat := sz1 + g.texCoordsBytes
  let normal : BufferRange := { byteOffset := sz2, byteSize := g.normalsBytes }
  let sz3 : Nat := sz2 + g.normalsBytes
  let tangent : BufferRange := { byteOffset := sz3, byteSize := g.tangentsBytes }
  let sz4 : Nat := sz3 + g.tangentsBytes
  { position := position, texCoord1 := texCoord1, normal := normal,
    tangent := tangent, vertexBufferSize := sz4 }

/-- Kind of payload a scene-graph leaf carries in this example: the cube
mesh instance or the directional sun light. -/
inductive SceneLeaf where
  | meshInstance
  | light
  deriving DecidableEq

/-- Child node attached under the root by
`SceneGraph::AttachLeafNode(node, sunLight)`: a node carrying one leaf.
The example never nests deeper than one level below the root. -/
structure ChildNode where
  name : String
  leaf : SceneLeaf
  deriving DecidableEq

/-- Root node of the scene graph as assembled by `SimpleScene::Init`:
an optional leaf of its own (set by `SetLeaf`) and a list of attached
child nodes. -/
structure RootNode where
  name : String
  leaf : Option SceneLeaf
  children : List ChildNode
  deriving DecidableEq

/-- Number of mesh-instance leaves in the (root plus children) graph. -/
def meshLeafCount (r : RootNode) : Nat :=
  (if r.leaf = some SceneLeaf.meshInstance then 1 else 0) +
    (r.children.filter (fun c => decide (c.leaf = SceneLeaf.meshInstance))).length

/-- Number of light leaves in the (root plus children) graph. -/
def lightLeafCount (r : RootNode) : Nat :=
  (if r.leaf = some SceneLeaf.light then 1 else 0) +
    (r.children.filter (fun c => decide (c.leaf = SceneLeaf.light))).length

/-- Scene graph produced by `SimpleScene::Init` (part_000 lines 206-225):
the root node "CubeNode" carries the mesh-instance leaf (`SetLeaf`), and
`AttachLeafNode` attaches one child node carrying the directional light
"Sun". -/
def cubeSceneRoot : RootNode :=
  { name := "CubeNode", leaf := some SceneLeaf.meshInstance,
    children := [{ name := "Sun", leaf := SceneLeaf.light }] }

/-- Scene-graph operations performed by `SimpleScene::Init`, in program
order.  `setRootNode`, `setLeaf` and `attachLeafNode` are structural
changes; `refresh` is `SceneGraph::Refresh(0)`. -/
inductive SceneOp where
  | setRootNode
  | setLeaf
  | attachLeafNode
  | refresh
  deriving DecidableEq

/-- Whether a scene operation changes the structure of the graph. -/
def structuralOp : SceneOp → Bool
  | SceneOp.refresh => false
  | _ => true

/-- Holds when a refresh happens and no structural change follows the
last refresh of the trace. -/
def refreshFollowsAllChanges (ops : List SceneOp) : Bool :=
  ops.contains SceneOp.refresh &&
    ((ops.reverse.takeWhile (fun op => op != SceneOp.refresh)).filter structuralOp).isEmpty

namespace SimpleScene

/-- Environment of `SimpleScene::Init`: whether
`TextureCache::LoadTextureFromFile` yields a non-null texture handle.
It is the only outcome the function branches on. -/
structure Env where
  textureOk : Bool
  deriving DecidableEq

/-- Observable outcome of `SimpleScene::Init` (part_000 lines 110-230):
the returned boolean, whether the texture error path
(`log::error("Couldn't load the texture")`) ran, how many texture loads
were attempted, the vertex-buffer layout it set up, the scene graph it
assembled (none on failure — the graph is built after the texture
check), and the trace of scene-graph operations. -/
structure InitResult where
  ok : Bool
  loggedTextureError : Bool
  textureLoadAttempts : Nat
  layout : VertexLayout
  graph : Option RootNode
  ops : List SceneOp
  deriving DecidableEq

/-- `SimpleScene::Init`: builds the index/vertex/instance buffers and the
attribute layout, loads the texture exactly once (line 179), executes the
command list, then returns false with a logged error when the texture
handle is null (lines 186-190); otherwise assembles mesh, scene graph
(root node, mesh leaf, attached light leaf) and calls `Refresh(0)` (line
225) before returning true. -/
def Init (g : CubeGeometrySizes) (e : Env) : InitResult :=
  let layout := buildVertexLayout g
  if e.textureOk = false then
    { ok := false, loggedTextureError := true, textureLoadAttempts := 1,
      layout := layout, graph := none, ops := [] }
  else
    { ok := true, loggedTextureError := false, textureLoadAttempts := 1,
      layout := layout, graph := some cubeSceneRoot,
      ops := [SceneOp.setRootNode, SceneOp.setLeaf, SceneOp.attachLeafNode,
              SceneOp.refresh] }

end SimpleScene

namespace DeferredShading

/-- Environment of one run of the deferred_shading example:
`lightingShadersOk` records whether the shaders compiled inside the
external `DeferredLightingPass::Init` / `GBufferFillPass::Init` calls
came out non-null (the example never inspects this), `textureOk` the
texture-load outcome inside `SimpleScene::Init`, plus device creation
and frame count as in the other examples. -/
structure Env where
  deviceOk : Bool
  lightingShadersOk : Bool
  textureOk : Bool
  frames : Nat
  deriving DecidableEq

/-- `DeferredShading::Init` (part_000 lines 326-348): sets up the shader
factory, the deferred lighting pass (whose `Init` returns no status and
whose result is not checked), the texture cache and the command list,
then returns exactly the result of `SimpleScene::Init`.  Note that no
shader handle is checked anywhere in this function. -/
def Init (g : CubeGeometrySizes) (e : Env) : Bool :=
  (SimpleScene.Init g { textureOk := e.textureOk }).ok

/-- Size-dependent member state of the `DeferredShading` class:
`m_RenderTargets` (none, or its allocated size, the size handed to
`RenderTargets::Init`) and `m_GBufferPass` (the lazily created pass that
owns the G-buffer pipeline; `true` means non-null). -/
structure State where
  renderTargets : Option (Nat × Nat)
  gBufferPass : Bool
  deriving DecidableEq

/-- `DeferredShading::BackBufferResizing` (part_000 lines 356-359): the
body is empty; no member is modified. -/
def backBufferResizing (s : State) : State :=
  s

/-- The realloc condition of `DeferredShading::Render` (line 367):
`!m_RenderTargets || any(m_RenderTargets->GetSize() != size)` —
component-wise inequality of the stored size against the framebuffer
size. -/
def needRealloc (rt : Option (Nat × Nat)) (fb : Nat × Nat) : Bool :=
  match rt with
  | none => true
  | some sz => sz.1 != fb.1 || sz.2 != fb.2

/-- Resize/allocation effect of `DeferredShading::Render` (lines
361-386) on a framebuffer of size `fb`: when the targets are missing or
their size differs, the old targets and G-buffer pass are released and
new targets of exactly size `fb` are allocated; afterwards the G-buffer
pass is created when missing.  The flag records whether a render-target
reallocation happened this frame. -/
def render (s : State) (fb : Nat × Nat) : State × Bool :=
  if needRealloc s.renderTargets fb then
    ({ renderTargets := some fb, gBufferPass := true }, true)
  else
    ({ s with gBufferPass := true }, false)

/-- The `main` entry point of deferred_shading (part_000 lines 437-470),
same shape as the other two examples; `pipelineCreated` records whether
the G-buffer fill pass (owner of the example's graphics pipeline) was
ever created, which happens on the first `Render` of the message loop
regardless of shader compilation outcomes. -/
def mainResult (g : CubeGeometrySizes) (e : Env) : MainResult :=
  if e.deviceOk = false then
    { exitCode := 1, addedPass := false, ranLoop := false, shutdown := false,
      pipelineCreated := false }
  else if Init g e then
    { exitCode := 0, addedPass := true, ranLoop := true, shutdown := true,
      pipelineCreated := e.frames != 0 }
  else
    { exitCode := 0, addedPass := false, ranLoop := false, shutdown := true,
      pipelineCreated := false }

end DeferredShading

/-- Placeholder byte sizes for the cube attribute arrays of
`CubeGeometry.h` (absent from the snapshot); no result proved below
depends on the concrete values. -/
def placeholderCubeSizes : CubeGeometrySizes :=
  { positionsBytes := 288, texCoordsBytes := 192, normalsBytes := 96,
    tangentsBytes := 96 }

/-- Deferred-shading run in which the shaders compiled by the external
passes come out null but the texture loads fine. -/
def shaderFailEnv : DeferredShading.Env :=
  { deviceOk := true, lightingShadersOk := false, textureOk := true, frames := 1 }

/-- Deferred-shading member state right before a back-buffer resize: the
render targets and the G-buffer pass (owner of the pipeline) exist. -/
def resizedState : DeferredShading.State :=
  { renderTargets := some (800, 600), gBufferPass := true }

/-! ## Theorems -/

/-- Claim C4: in `SimpleScene::Init` of the deferred_shading example, the
four vertex-attribute byte ranges (Position, TexCoord1, Normal, Tangent)
packed into the single vertex buffer are pairwise non-overlapping, laid
out consecutively starting at offset 0, and the vertex buffer is
allocated with byte size exactly the sum of the four ranges' sizes. -/
theorem claim4_vertex_layout (g : CubeGeometrySizes) :
    (buildVertexLayout g).position.byteOffset = 0 ∧
    (buildVertexLayout g).position.byteSize = g.positionsBytes ∧
    (buildVertexLayout g).texCoord1.byteOffset =
      (buildVertexLayout g).position.byteOffset + (buildVertexLayout g).position.byteSize ∧
    (buildVertexLayout g).texCoord1.byteSize = g.texCoordsBytes ∧
    (buildVertexLayout g).normal.byteOffset =
      (buildVertexLayout g).texCoord1.byteOffset + (buildVertexLayout g).texCoord1.byteSize ∧
    (buildVertexLayout g).normal.byteSize = g.normalsBytes ∧
    (buildVertexLayout g).tangent.byteOffset =
      (buildVertexLayout g).normal.byteOffset + (buildVertexLayout g).normal.byteSize ∧
    (buildVertexLayout g).tangent.byteSize = g.tangentsBytes ∧
    rangesDisjoint (buildVertexLayout g).position (buildVertexLayout g).texCoord1 ∧
    rangesDisjoint (buildVertexLayout g).position (buildVertexLayout g).normal ∧
    rangesDisjoint (buildVertexLayout g).position (buildVertexLayout g).tangent ∧
    rangesDisjoint (buildVertexLayout g).texCoord1 (buildVertexLayout g).normal ∧
    rangesDisjoint (buildVertexLayout g).texCoord1 (buildVertexLayout g).tangent ∧
    rangesDisjoint (buildVertexLayout g).normal (buildVertexLayout g).tangent ∧
    (buildVertexLayout g).vertexBufferSize =
      g.positionsBytes + g.texCoordsBytes + g.normalsBytes + g.tangentsBytes := by
  simp [buildVertexLayout, rangesDisjoint]
  omega

/-- Claim C8: for every example's entry point, the process exit code is 1
exactly when window/device/swapchain creation fails, and 0 in every
other case, including when `Init` fails. -/
theorem claim8_exit_codes (eb : BasicTriangle.Env) (ev : VertexBuffer.Env)
    (g : CubeGeometrySizes) (ed : DeferredShading.Env) :
    (BasicTriangle.mainResult eb).exitCode = (if eb.deviceOk = true then 0 else 1) ∧
    (VertexBuffer.mainResult ev).exitCode = (if ev.deviceOk = true then 0 else 1) ∧
    (DeferredShading.mainResult g ed).exitCode = (if ed.deviceOk = true then 0 else 1) := by
  refine ⟨?_, ?_, ?_⟩
  · obtain ⟨vs, ps, dev, fr⟩ := eb
    cases dev <;> cases vs <;> cases ps <;>
      simp [BasicTriangle.mainResult, BasicTriangle.Init]
  · obtain ⟨vs, ps, tex, bnd, dev, fr⟩ := ev
    cases dev <;> cases vs <;> cases ps <;> cases tex <;> cases bnd <;>
      simp [VertexBuffer.mainResult, VertexBuffer.Init]
  · obtain ⟨dev, sh, tex, fr⟩ := ed
    cases dev <;> cases tex <;>
      simp [DeferredShading.mainResult, DeferredShading.Init, SimpleScene.Init]

/-- Claim C9: for every example's entry point, the example is added to
the render loop and the message loop runs exactly when the device was
created and `Init` returned true; `Shutdown` is reached exactly when the
device was created (in particular it is still reached when `Init`
fails). -/
theorem claim9_init_gates_loop (eb : BasicTriangle.Env) (ev : VertexBuffer.Env)
    (g : CubeGeometrySizes) (ed : DeferredShading.Env) :
    (BasicTriangle.mainResult eb).addedPass = (eb.deviceOk && BasicTriangle.Init eb) ∧
    (BasicTriangle.mainResult eb).ranLoop = (eb.deviceOk && BasicTriangle.Init eb) ∧
    (BasicTriangle.mainResult eb).shutdown = eb.deviceOk ∧
    (VertexBuffer.mainResult ev).addedPass = (ev.deviceOk && (VertexBuffer.Init ev).ok) ∧
    (VertexBuffer.mainResult ev).ranLoop = (ev.deviceOk && (VertexBuffer.Init ev).ok) ∧
    (VertexBuffer.mainResult ev).shutdown = ev.deviceOk ∧
    (DeferredShading.mainResult g ed).addedPass = (ed.deviceOk && DeferredShading.Init g ed) ∧
    (DeferredShading.mainResult g ed).ranLoop = (ed.deviceOk && DeferredShading.Init g ed) ∧
    (DeferredShading.mainResult g ed).shutdown = ed.deviceOk := by
  refine ⟨?_, ?_, ?_, ?_, ?_, ?_, ?_, ?_, ?_⟩ <;>
    first
    | (obtain ⟨vs, ps, dev, fr⟩ := eb
       cases dev <;> cases vs <;> cases ps <;>
         simp [BasicTriangle.mainResult, BasicTriangle.Init])
    | (obtain ⟨vs, ps, tex, bnd, dev, fr⟩ := ev
       cases dev <;> cases vs <;> cases ps <;> cases tex <;> cases bnd <;>
         simp [VertexBuffer.mainResult, VertexBuffer.Init])
    | (obtain ⟨dev, sh, tex, fr⟩ := ed
       cases dev <;> cases tex <;>
         simp [DeferredShading.mainResult, DeferredShading.Init, SimpleScene.Init])

/-- Claim C1 (amended): for basic_triangle and vertex_buffer, if shader
compilation fails (a null vertex or pixel shader handle) then `Init`
returns false and no graphics pipeline is ever created; the
deferred_shading example's `Init`, however, never inspects any shader
handle — its return value equals the scene-load (texture) outcome, so it
is independent of shader compilation. -/
theorem claim1_shader_failure (eb : BasicTriangle.Env) (ev : VertexBuffer.Env)
    (g : CubeGeometrySizes) (ed : DeferredShading.Env) :
    ((eb.vsOk = false ∨ eb.psOk = false) →
      BasicTriangle.Init eb = false ∧
      (BasicTriangle.mainResult eb).pipelineCreated = false) ∧
    ((ev.vsOk = false ∨ ev.psOk = false) →
      (VertexBuffer.Init ev).ok = false ∧
      (VertexBuffer.mainResult ev).pipelineCreated = false) ∧
    DeferredShading.Init g ed = ed.textureOk := by
  refine ⟨?_, ?_, ?_⟩
  · obtain ⟨vs, ps, dev, fr⟩ := eb
    cases dev <;> cases vs <;> cases ps <;>
      simp [BasicTriangle.mainResult, BasicTriangle.Init]
  · obtain ⟨vs, ps, tex, bnd, dev, fr⟩ := ev
    cases dev <;> cases vs <;> cases ps <;> cases tex <;> cases bnd <;>
      simp [VertexBuffer.mainResult, VertexBuffer.Init]
  · obtain ⟨dev, sh, tex, fr⟩ := ed
    cases tex <;> simp [DeferredShading.Init, SimpleScene.Init]

/-- Claim C1 counterexample: in the deferred_shading example a run where
every shader compiled by the external passes comes out null but the
texture loads fine still has `Init` return true, and a pipeline (the
G-buffer fill pass) is still created on the first frame — refuting the
claim that `Init` returns false and no pipeline is created whenever
shader compilation fails. -/
theorem claim1_counterexample :
    shaderFailEnv.lightingShadersOk = false ∧
    DeferredShading.Init placeholderCubeSizes shaderFailEnv = true ∧
    (DeferredShading.mainResult placeholderCubeSizes shaderFailEnv).pipelineCreated = true := by
  refine ⟨rfl, ?_, ?_⟩ <;> decide

/-- Witness for the amended claim C1 at concrete inputs. -/
theorem claim1_witness :
    BasicTriangle.Init ⟨false, true, true, 5⟩ = false ∧
    (BasicTriangle.mainResult ⟨false, true, true, 5⟩).pipelineCreated = false ∧
    (VertexBuffer.Init ⟨false, true, true, true, true, 5⟩).ok = false ∧
    (VertexBuffer.mainResult ⟨false, true, true, true, true, 5⟩).pipelineCreated = false ∧
    DeferredShading.Init placeholderCubeSizes shaderFailEnv = shaderFailEnv.textureOk := by
  have h := claim1_shader_failure ⟨false, true, true, 5⟩
    ⟨false, true, true, true, true, 5⟩ placeholderCubeSizes shaderFailEnv
  have hb := h.1 (Or.inl rfl)
  have hv := h.2.1 (Or.inl rfl)
  exact ⟨hb.1, hb.2, hv.1, hv.2, h.2.2⟩

/-- Claim C3 (amended): for basic_triangle and vertex_buffer,
`BackBufferResizing` clears the cached pipeline handle and modifies no
other member, so the next `Render` recreates the pipeline; the
deferred_shading example's `BackBufferResizing` has an empty body and
modifies nothing (its size-dependent state is instead invalidated inside
`Render` by a size comparison). -/
theorem claim3_pipeline_invalidation (s : BasicTriangle.State)
    (t : VertexBuffer.State) (u : DeferredShading.State) :
    BasicTriangle.backBufferResizing s = { s with pipeline := false } ∧
    (BasicTriangle.render (BasicTriangle.backBufferResizing s)).2 = true ∧
    VertexBuffer.backBufferResizing t = { t with pipeline := false } ∧
    (VertexBuffer.render (VertexBuffer.backBufferResizing t)).2 = true ∧
    DeferredShading.backBufferResizing u = u := by
  refine ⟨rfl, ?_, rfl, ?_, rfl⟩
  · simp [BasicTriangle.render, BasicTriangle.backBufferResizing]
  · simp [VertexBuffer.render, VertexBuffer.backBufferResizing]

/-- Claim C3 counterexample: in the deferred_shading example,
`BackBufferResizing` on a state whose render targets and G-buffer pass
(the owner of the pipeline) exist leaves both in place — the cached
pipeline is not cleared, refuting the claim for this example. -/
theorem claim3_counterexample :
    (DeferredShading.backBufferResizing resizedState).gBufferPass ≠ false ∧
    (DeferredShading.backBufferResizing resizedState).renderTargets ≠ none := by
  decide

/-- Helper: the realloc condition of `DeferredShading::Render` holds
exactly when the stored render-target size differs from (or there are no
render targets for) the current framebuffer size. -/
theorem needRealloc_iff (rt : Option (Nat × Nat)) (fb : Nat × Nat) :
    DeferredShading.needRealloc rt fb = true ↔ rt ≠ some fb := by
  cases rt with
  | none => simp [DeferredShading.needRealloc]
  | some sz =>
    obtain ⟨a, b⟩ := sz
    obtain ⟨c, d⟩ := fb
    simp [DeferredShading.needRealloc, Prod.ext_iff]
    tauto

/-- Claim C5: in `DeferredShading::Render` the render targets are
released and reallocated exactly when they do not yet exist or their
size differs from the framebuffer size; the new targets have exactly the
framebuffer's size; when the size is unchanged no reallocation occurs
and the state is untouched apart from the lazily created G-buffer pass;
and a second render at the same size never reallocates again. -/
theorem claim5_render_target_realloc (s : DeferredShading.State) (fb : Nat × Nat) :
    ((DeferredShading.render s fb).2 = true ↔ s.renderTargets ≠ some fb) ∧
    (DeferredShading.render s fb).1.renderTargets = some fb ∧
    (s.renderTargets = some fb →
      (DeferredShading.render s fb).2 = false ∧
      (DeferredShading.render s fb).1 = { s with gBufferPass := true }) ∧
    (DeferredShading.render (DeferredShading.render s fb).1 fb).2 = false := by
  have hiff := needRealloc_iff s.renderTargets fb
  have hsame : DeferredShading.needRealloc (some fb) fb = false := by
    obtain ⟨c, d⟩ := fb
    simp [DeferredShading.needRealloc]
  by_cases heq : s.renderTargets = some fb
  · have hf : DeferredShading.needRealloc s.renderTargets fb = false := by
      rw [heq]
      exact hsame
    refine ⟨?_, ?_, ?_, ?_⟩
    · simp [DeferredShading.render, hf, heq, hsame]
    · simp [DeferredShading.render, hf, heq, hsame]
    · intro _
      simp [DeferredShading.render, hf]
    · simp [DeferredShading.render, hf, heq, hsame]
  · have ht : DeferredShading.needRealloc s.renderTargets fb = true := hiff.mpr heq
    refine ⟨?_, ?_, ?_, ?_⟩
    · simp [DeferredShading.render, ht, heq]
    · simp [DeferredShading.render, ht]
    · intro hc
      exact absurd hc heq
    · simp [DeferredShading.render, ht, hsame]

/-- Witness for claim C5: a size change triggers reallocation to the new
size; rendering again at the same size does not reallocate. -/
theorem claim5_witness :
    (DeferredShading.render { renderTargets := some (640, 480), gBufferPass := true }
        (800, 600)).1.renderTargets = some (800, 600) ∧
    (DeferredShading.render { renderTargets := some (800, 600), gBufferPass := true }
        (800, 600)).2 = false := by
  refine ⟨(claim5_render_target_realloc _ _).2.1, ?_⟩
  exact ((claim5_render_target_realloc
    { renderTargets := some (800, 600), gBufferPass := true } (800, 600)).2.2.1 rfl).1

/-- Claim C6: after a successful `SimpleScene::Init` the scene graph has
one root node, exactly one mesh-instance leaf and exactly one light
leaf, and `Refresh` runs after all structural changes and before `Init`
returns. -/
theorem claim6_scene_graph (g : CubeGeometrySizes) (e : SimpleScene.Env) :
    (SimpleScene.Init g e).ok = true →
      (SimpleScene.Init g e).graph = some cubeSceneRoot ∧
      meshLeafCount cubeSceneRoot = 1 ∧
      lightLeafCount cubeSceneRoot = 1 ∧
      refreshFollowsAllChanges (SimpleScene.Init g e).ops = true := by
  intro h
  obtain ⟨tex⟩ := e
  cases tex
  · simp [SimpleScene.Init] at h
  · refine ⟨by simp [SimpleScene.Init], by decide, by decide, ?_⟩
    have hops : (SimpleScene.Init g ⟨true⟩).ops =
        [SceneOp.setRootNode, SceneOp.setLeaf, SceneOp.attachLeafNode,
         SceneOp.refresh] := by
      simp [SimpleScene.Init]
    rw [hops]
    decide

/-- Witness for claim C6 at a concrete successful run. -/
theorem claim6_witness :
    (SimpleScene.Init placeholderCubeSizes ⟨true⟩).ok = true ∧
    ((SimpleScene.Init placeholderCubeSizes ⟨true⟩).graph = some cubeSceneRoot ∧
      meshLeafCount cubeSceneRoot = 1 ∧
      lightLeafCount cubeSceneRoot = 1 ∧
      refreshFollowsAllChanges (SimpleScene.Init placeholderCubeSizes ⟨true⟩).ops = true) :=
  ⟨by decide, claim6_scene_graph placeholderCubeSizes ⟨true⟩ (by decide)⟩

/-- Claim C7: in the two texture-loading examples, a null loaded texture
handle makes `Init` log an error and return false, and the texture load
is attempted at most once (exactly once in `SimpleScene::Init`) — no
retry. -/
theorem claim7_texture_failure (ev : VertexBuffer.Env) (g : CubeGeometrySizes)
    (e : SimpleScene.Env) :
    (ev.vsOk = true → ev.psOk = true → ev.textureOk = false →
      (VertexBuffer.Init ev).ok = false ∧
      (VertexBuffer.Init ev).loggedTextureError = true ∧
      (VertexBuffer.Init ev).textureLoadAttempts = 1) ∧
    (VertexBuffer.Init ev).textureLoadAttempts ≤ 1 ∧
    (e.textureOk = false →
      (SimpleScene.Init g e).ok = false ∧
      (SimpleScene.Init g e).loggedTextureError = true ∧
      (SimpleScene.Init g e).textureLoadAttempts = 1) ∧
    (SimpleScene.Init g e).textureLoadAttempts = 1 := by
  obtain ⟨vs, ps, tex, bnd, dev, fr⟩ := ev
  obtain ⟨etex⟩ := e
  cases vs <;> cases ps <;> cases tex <;> cases bnd <;> cases etex <;>
    simp [VertexBuffer.Init, SimpleScene.Init]

/-- Witness for claim C7 at concrete failing texture loads. -/
theorem claim7_witness :
    (VertexBuffer.Init ⟨true, true, false, true, true, 0⟩).ok = false ∧
    (VertexBuffer.Init ⟨true, true, false, true, true, 0⟩).loggedTextureError = true ∧
    (SimpleScene.Init placeholderCubeSizes ⟨false⟩).ok = false ∧
    (SimpleScene.Init placeholderCubeSizes ⟨false⟩).loggedTextureError = true ∧
    (SimpleScene.Init placeholderCubeSizes ⟨false⟩).textureLoadAttempts = 1 := by
  have h := claim7_texture_failure ⟨true, true, false, true, true, 0⟩
    placeholderCubeSizes ⟨false⟩
  have hv := h.1 rfl rfl rfl
  have hs := h.2.2.1 rfl
  exact ⟨hv.1, hv.2.1, hs.1, hs.2.1, h.2.2.2⟩

/-- Claim C2: the four viewports built by `VertexBuffer::Render` for a
framebuffer of extent `w` by `h` are pairwise non-overlapping, their
union covers the full `w` by `h` framebuffer area, and they form the
2-by-2 grid with `left = (w/2) * (i % 2)`, `top = (h/2) * (i / 2)` and
extent `w/2` by `h/2`. -/
theorem claim2_viewport_partition :
    (∀ (w h : Nat) (i j : Nat), i < 4 → j < 4 → i ≠ j → ∀ x y : ℚ,
      ¬(VertexBuffer.vpContains (VertexBuffer.renderViewport w h i) x y ∧
        VertexBuffer.vpContains (VertexBuffer.renderViewport w h j) x y)) ∧
    (∀ (w h : Nat) (x y : ℚ), 0 ≤ x → x < (w : ℚ) → 0 ≤ y → y < (h : ℚ) →
      ∃ i, i < 4 ∧ VertexBuffer.vpContains (VertexBuffer.renderViewport w h i) x y) ∧
    (∀ (w h i : Nat),
      (VertexBuffer.renderViewport w h i).minX =
        (w : ℚ) * (1 / 2) * ((i % 2 : Nat) : ℚ) ∧
      (VertexBuffer.renderViewport w h i).maxX =
        (VertexBuffer.renderViewport w h i).minX + (w : ℚ) * (1 / 2) ∧
      (VertexBuffer.renderViewport w h i).minY =
        (h : ℚ) * (1 / 2) * ((i / 2 : Nat) : ℚ) ∧
      (VertexBuffer.renderViewport w h i).maxY =
        (VertexBuffer.renderViewport w h i).minY + (h : ℚ) * (1 / 2)) := by
  refine ⟨?_, ?_, ?_⟩
  · intro w h i j hi hj hne x y hxy
    simp only [VertexBuffer.vpContains, VertexBuffer.renderViewport] at hxy
    obtain ⟨⟨a1, a2, a3, a4⟩, b1, b2, b3, b4⟩ := hxy
    interval_cases i <;> interval_cases j <;>
      first
      | exact hne rfl
      | (norm_num at a1 a2 a3 a4 b1 b2 b3 b4 ⊢; linarith)
  · intro w h x y hx hxw hy hyh
    by_cases hxc : x < (w : ℚ) * (1 / 2) <;> by_cases hyc : y < (h : ℚ) * (1 / 2)
    · refine ⟨0, by norm_num, ?_⟩
      simp only [VertexBuffer.vpContains, VertexBuffer.renderViewport]
      refine ⟨?_, ?_, ?_, ?_⟩ <;> push_cast <;> norm_num <;> linarith
    · refine ⟨2, by norm_num, ?_⟩
      push_neg at hyc
      simp only [VertexBuffer.vpContains, VertexBuffer.renderViewport]
      refine ⟨?_, ?_, ?_, ?_⟩ <;> push_cast <;> norm_num <;> linarith
    · refine ⟨1, by norm_num, ?_⟩
      push_neg at hxc
      simp only [VertexBuffer.vpContains, VertexBuffer.renderViewport]
      refine ⟨?_, ?_, ?_, ?_⟩ <;> push_cast <;> norm_num <;> linarith
    · refine ⟨3, by norm_num, ?_⟩
      push_neg at hxc hyc
      simp only [VertexBuffer.vpContains, VertexBuffer.renderViewport]
      refine ⟨?_, ?_, ?_, ?_⟩ <;> push_cast <;> norm_num <;> linarith
  · intro w h i
    exact ⟨rfl, rfl, rfl, rfl⟩

/-- Witness for claim C2 on a 2-by-2 framebuffer: viewports 0 and 1 do
not overlap at the origin, and the point (1, 1) lies in one of the four
viewports. -/
theorem claim2_witness :
    ¬(VertexBuffer.vpContains (VertexBuffer.renderViewport 2 2 0) 0 0 ∧
      VertexBuffer.vpContains (VertexBuffer.renderViewport 2 2 1) 0 0) ∧
    (∃ i, i < 4 ∧ VertexBuffer.vpContains (VertexBuffer.renderViewport 2 2 i) 1 1) := by
  refine ⟨claim2_viewport_partition.1 2 2 0 1 (by norm_num) (by norm_num)
    (by norm_num) 0 0, ?_⟩
  exact claim2_viewport_partition.2.1 2 2 1 1 (by norm_num) (by norm_num)
    (by norm_num) (by norm_num)

/-- Claim C10: one `ConstantBufferEntry` is exactly 256 bytes, the
constant-buffer offset alignment; the constant buffer holds 4 entries
(1024 bytes); binding set `i` binds the byte range starting at `256 * i`
of size 256; the four ranges are pairwise disjoint and together cover
the whole buffer. -/
theorem claim10_constant_buffer_slices :
    VertexBuffer.sizeofConstantBufferEntry = 256 ∧
    VertexBuffer.sizeofConstantBufferEntry =
      VertexBuffer.c_ConstantBufferOffsetSizeAlignment ∧
    VertexBuffer.constantBufferByteSize = 1024 ∧
    (∀ i, i < VertexBuffer.c_NumViews →
      VertexBuffer.bindingSetRange i = { byteOffset := 256 * i, byteSize := 256 }) ∧
    (∀ i j, i < VertexBuffer.c_NumViews → j < VertexBuffer.c_NumViews → i ≠ j →
      rangesDisjoint (VertexBuffer.bindingSetRange i) (VertexBuffer.bindingSetRange j)) ∧
    (∀ a, a < VertexBuffer.constantBufferByteSize ↔
      ∃ i, i < VertexBuffer.c_NumViews ∧ inRange (VertexBuffer.bindingSetRange i) a) := by
  refine ⟨rfl, rfl, rfl, ?_, ?_, ?_⟩
  · intro i hi
    simp [VertexBuffer.bindingSetRange, VertexBuffer.sizeofConstantBufferEntry]
  · intro i j hi hj hne
    simp only [VertexBuffer.bindingSetRange, VertexBuffer.sizeofConstantBufferEntry,
      rangesDisjoint]
    omega
  · intro a
    constructor
    · intro ha
      simp only [VertexBuffer.constantBufferByteSize,
        VertexBuffer.sizeofConstantBufferEntry, VertexBuffer.c_NumViews] at ha
      refine ⟨a / 256, ?_, ?_⟩
      · simp only [VertexBuffer.c_NumViews]
        omega
      · simp only [inRange, VertexBuffer.bindingSetRange,
          VertexBuffer.sizeofConstantBufferEntry]
        omega
    · rintro ⟨i, hi, hlo, hhi⟩
      simp only [inRange, VertexBuffer.bindingSetRange,
        VertexBuffer.sizeofConstantBufferEntry, VertexBuffer.c_NumViews] at hi hlo hhi
      simp only [VertexBuffer.constantBufferByteSize,
        VertexBuffer.sizeofConstantBufferEntry, VertexBuffer.c_NumViews]
      omega

/-- Witness for claim C10 at concrete view indices and byte address. -/
theorem claim10_witness :
    VertexBuffer.bindingSetRange 2 = { byteOffset := 256 * 2, byteSize := 256 } ∧
    rangesDisjoint (VertexBuffer.bindingSetRange 0) (VertexBuffer.bindingSetRange 1) ∧
    (300 < VertexBuffer.constantBufferByteSize ↔
      ∃ i, i < VertexBuffer.c_NumViews ∧ inRange (VertexBuffer.bindingSetRange i) 300) := by
  have h := claim10_constant_buffer_slices
  exact ⟨h.2.2.2.1 2 (by decide), h.2.2.2.2.1 0 1 (by decide) (by decide) (by decide),
    h.2.2.2.2.2 300⟩

end Donut
